import Mathlib

/-!
Verification of the MediGuard clinical risk scoring engine.

This file embeds the decision logic of `rule_based_system.py`
(`MediGuardRuleBasedSystem`) and `integrated_system.py`
(`IntegratedMediGuardSystem._calculate_combined_risk` and
`comprehensive_patient_analysis`) as executable Lean definitions and
proves properties of them.

Modelling conventions:
- Python numbers are embedded as exact rationals (`ℚ`); the thresholds
  involved leave wide margins, so every comparison made by the code has
  the same outcome under exact arithmetic.
- A vital-sign mapping is a function `Vital → Option ℚ`; `none` plays the
  role both of an absent dictionary key and of a `None` value (the code
  filters `None` values out before scoring, so the two coincide).
- The `language` constructor argument only selects display strings; the
  embedding fixes `language = "en"`.
- The ECG classifier is an external trained model (out of scope); its
  output record is taken as an input of the integrated analysis.
-/

namespace MediGuard

/-- The six vital-sign names recognized by the system. -/
inductive Vital where
  | respiratory_rate
  | spo2
  | systolic_bp
  | diastolic_bp
  | pulse
  | temperature
deriving DecidableEq, Repr

/-- A vital-sign reading set: each recognized vital is either absent
(`none`) or carries a numeric value. -/
def VitalSigns : Type := Vital → Option ℚ

/-- An extended bound, embedding Python's `float('-inf')` / `float('inf')`
endpoints of the NEWS range tables. -/
inductive XVal where
  | ninf
  | fin (q : ℚ)
  | pinf
deriving DecidableEq, Repr

/-- `lo.leq q` embeds `min_val <= value`. -/
def XVal.leq : XVal → ℚ → Bool
  | .ninf, _ => true
  | .fin x, q => decide (x ≤ q)
  | .pinf, _ => false

/-- `hi.geq q` embeds `value <= max_val`. -/
def XVal.geq : XVal → ℚ → Bool
  | .ninf, _ => false
  | .fin x, q => decide (q ≤ x)
  | .pinf, _ => true

/-- One `(min_val, max_val, score)` row of a NEWS range table. -/
structure NewsRange where
  lo : XVal
  hi : XVal
  score : ℕ
deriving DecidableEq, Repr

/-- `min_val <= value <= max_val` for one table row. -/
def NewsRange.containsQ (r : NewsRange) (q : ℚ) : Bool :=
  r.lo.leq q && r.hi.geq q

/-- The `news_thresholds` range tables from `rule_based_system.py`;
`none` for `diastolic_bp`, which has no NEWS table (the scoring loop
guards with `vital in self.news_thresholds`). -/
def news_thresholds : Vital → Option (List NewsRange)
  | .respiratory_rate => some
      [⟨.ninf, .fin 8, 3⟩, ⟨.fin 9, .fin 11, 1⟩, ⟨.fin 12, .fin 20, 0⟩,
       ⟨.fin 21, .fin 24, 2⟩, ⟨.fin 25, .pinf, 3⟩]
  | .spo2 => some
      [⟨.ninf, .fin 91, 3⟩, ⟨.fin 92, .fin 93, 2⟩, ⟨.fin 94, .fin 95, 1⟩,
       ⟨.fin 96, .pinf, 0⟩]
  | .systolic_bp => some
      [⟨.ninf, .fin 90, 3⟩, ⟨.fin 91, .fin 100, 2⟩, ⟨.fin 101, .fin 110, 1⟩,
       ⟨.fin 111, .fin 219, 0⟩, ⟨.fin 220, .pinf, 3⟩]
  | .diastolic_bp => none
  | .pulse => some
      [⟨.ninf, .fin 40, 3⟩, ⟨.fin 41, .fin 50, 1⟩, ⟨.fin 51, .fin 90, 0⟩,
       ⟨.fin 91, .fin 110, 1⟩, ⟨.fin 111, .fin 130, 2⟩, ⟨.fin 131, .pinf, 3⟩]
  | .temperature => some
      [⟨.ninf, .fin 35, 3⟩, ⟨.fin 35.1, .fin 36, 1⟩, ⟨.fin 36.1, .fin 38, 0⟩,
       ⟨.fin 38.1, .fin 39, 1⟩, ⟨.fin 39.1, .pinf, 2⟩]

/-- First-match lookup over a range table: the score of the first row
containing the value, `none` when no row matches. -/
def findScore : List NewsRange → ℚ → Option ℕ
  | [], _ => none
  | r :: rs, q => if r.containsQ q then some r.score else findScore rs q

/-- `_get_news_parameter_score`: first matching row's score, defensive
default `0` when no row matches. -/
def get_news_parameter_score (ranges : List NewsRange) (value : ℚ) : ℕ :=
  match findScore ranges value with
  | some s => s
  | none => 0

/-- The risk-category record returned by `_determine_risk_category`. -/
structure RiskCategory where
  level : String
  response : String
  alert_level : String
  total_score : ℕ
deriving DecidableEq, Repr

/-- `_determine_risk_category`: scan of the `risk_categories` table
low `(0, 4)`, medium `(5, 6)`, high `(7, inf)`, with the `unknown`
fallback when no row matches. -/
def determine_risk_category (total_score : ℕ) : RiskCategory :=
  if 0 ≤ total_score ∧ total_score ≤ 4 then
    ⟨"low", "Ward-based response", "green", total_score⟩
  else if 5 ≤ total_score ∧ total_score ≤ 6 then
    ⟨"medium", "Key threshold for urgent response", "yellow", total_score⟩
  else if 7 ≤ total_score then
    ⟨"high", "Urgent or emergency response", "red", total_score⟩
  else
    ⟨"unknown", "Review required", "gray", total_score⟩

/-- Fixed iteration order over the recognized vitals. -/
def vitalsList : List Vital :=
  [.respiratory_rate, .spo2, .systolic_bp, .diastolic_bp, .pulse, .temperature]

/-- One entry of `individual_scores`: for a present vital with a NEWS
table, its value and parameter score. -/
def newsEntry (vs : VitalSigns) (v : Vital) : Option (Vital × ℚ × ℕ) :=
  match vs v, news_thresholds v with
  | some value, some ranges => some (v, value, get_news_parameter_score ranges value)
  | _, _ => none

/-- The result record of `calculate_news_score`. -/
structure NewsAnalysis where
  individual_scores : List (Vital × ℚ × ℕ)
  total_news_score : ℕ
  risk_category : RiskCategory

/-- `calculate_news_score`: score each present vital that has a NEWS
table, sum the parameter scores, and attach the risk category. -/
def calculate_news_score (vs : VitalSigns) : NewsAnalysis :=
  let scores := vitalsList.filterMap (newsEntry vs)
  let total_score := (scores.map (fun s => s.2.2)).sum
  ⟨scores, total_score, determine_risk_category total_score⟩

/-- One per-sensor error record from `_check_sensor_integrity`; the
`error` string is `"device_disconnected"` or `"implausible_value"` (the
embedding drops the interpolated observed value, which no downstream
decision reads). -/
structure SensorError where
  sensor : String
  error : String
deriving DecidableEq, Repr

/-- `_check_sensor_integrity`: per-sensor presence and plausibility
checks, in source order (Heart Rate, SpO2, Temperature, Blood Pressure,
Respiratory Rate); blood pressure is validated as a pair. -/
def check_sensor_integrity (vs : VitalSigns) : List SensorError :=
  (match vs .pulse with
   | none => [⟨"Heart Rate", "device_disconnected"⟩]
   | some hr => if ¬(30 ≤ hr ∧ hr ≤ 220) then [⟨"Heart Rate", "implausible_value"⟩] else [])
  ++ (match vs .spo2 with
      | none => [⟨"SpO2", "device_disconnected"⟩]
      | some s => if ¬(50 ≤ s ∧ s ≤ 100) then [⟨"SpO2", "implausible_value"⟩] else [])
  ++ (match vs .temperature with
      | none => [⟨"Temperature", "device_disconnected"⟩]
      | some t => if ¬(30 ≤ t ∧ t ≤ 43) then [⟨"Temperature", "implausible_value"⟩] else [])
  ++ (match vs .systolic_bp, vs .diastolic_bp with
      | none, _ => [⟨"Blood Pressure", "device_disconnected"⟩]
      | some _, none => [⟨"Blood Pressure", "device_disconnected"⟩]
      | some sbp, some dbp =>
        if ¬(60 ≤ sbp ∧ sbp ≤ 250 ∧ 30 ≤ dbp ∧ dbp ≤ 150) then
          [⟨"Blood Pressure", "implausible_value"⟩] else [])
  ++ (match vs .respiratory_rate with
      | none => [⟨"Respiratory Rate", "device_disconnected"⟩]
      | some r => if ¬(5 ≤ r ∧ r ≤ 60) then [⟨"Respiratory Rate", "implausible_value"⟩] else [])

/-- One iteration of the cleaning loop of `comprehensive_vital_analysis`:
null out the vitals belonging to an errored sensor.  Every error the
checker emits has `"disconnected"` or `"implausible_value"` in its
`error` string, so the loop's guard is always true and is not modelled. -/
def clean_one (vs : VitalSigns) (e : SensorError) : VitalSigns := fun v =>
  if e.sensor = "Blood Pressure" ∧ (v = .systolic_bp ∨ v = .diastolic_bp) then none
  else if e.sensor = "SpO2" ∧ v = .spo2 then none
  else if e.sensor = "Heart Rate" ∧ v = .pulse then none
  else if e.sensor = "Temperature" ∧ v = .temperature then none
  else if e.sensor = "Respiratory Rate" ∧ v = .respiratory_rate then none
  else vs v

/-- Steps 1–3 of `comprehensive_vital_analysis`: run the integrity check
and null out every errored sensor's readings.  (Filtering `None` values
is the identity under the `Option` model.) -/
def cleaned_vital_signs (vs : VitalSigns) : VitalSigns :=
  (check_sensor_integrity vs).foldl clean_one vs

/-- The diastolic blood-pressure staging record produced by
`_additional_clinical_rules`. -/
structure DiastolicAssessment where
  status : String
  severity : String
  value : ℚ
deriving DecidableEq, Repr

/-- Diastolic staging branch of `_additional_clinical_rules`, comparing
against the `clinical_thresholds` values hypotension = 60,
stage1_hypertension = 99, stage2_hypertension = 109.  (The declared
`normal_max = 89` threshold is never consulted by the code.) -/
def stage_diastolic (diastolic : ℚ) : DiastolicAssessment :=
  if diastolic < 60 then ⟨"hypotension", "medium", diastolic⟩
  else if diastolic > 109 then ⟨"severe_hypertension", "high", diastolic⟩
  else if diastolic > 99 then ⟨"moderate_hypertension", "medium", diastolic⟩
  else ⟨"normal", "low", diastolic⟩

/-- One critical-combination alert from `_check_critical_combinations`
(English description strings). -/
structure CriticalAlert where
  type : String
  description : String
  severity : String
deriving DecidableEq, Repr

/-- The respiratory-distress alert payload. -/
def respiratory_distress_alert : CriticalAlert :=
  ⟨"respiratory_distress",
   "Low oxygen saturation combined with high respiratory rate", "critical"⟩

/-- The potential-shock alert payload. -/
def potential_shock_alert : CriticalAlert :=
  ⟨"potential_shock", "Low blood pressure with compensatory tachycardia", "critical"⟩

/-- The potential-sepsis alert payload (severity `"high"`, not
`"critical"`). -/
def potential_sepsis_alert : CriticalAlert :=
  ⟨"potential_sepsis", "High fever with tachycardia - sepsis consideration", "high"⟩

/-- `_check_critical_combinations`: three independent predicates over the
cleaned reading set, with `dict.get` fallbacks spo2 100,
respiratory_rate 15, systolic_bp 120, pulse 70, temperature 37. -/
def check_critical_combinations (vs : VitalSigns) : List CriticalAlert :=
  (if (vs .spo2).getD 100 < 92 ∧ (vs .respiratory_rate).getD 15 > 22 then
    [respiratory_distress_alert]
   else [])
  ++ (if (vs .systolic_bp).getD 120 < 90 ∧ (vs .pulse).getD 70 > 100 then
    [potential_shock_alert]
      else [])
  ++ (if (vs .temperature).getD 37 > 38.3 ∧ (vs .pulse).getD 70 > 110 then
    [potential_sepsis_alert]
      else [])

/-- The `assessments` dictionary built by `_additional_clinical_rules`:
an optional diastolic staging entry and the critical-combination list
(the source only adds the `critical_combinations` key when the list is
non-empty; consumers read it back with a `[]` default, so the empty list
models the absent key). -/
structure Assessments where
  diastolic_bp : Option DiastolicAssessment
  critical_combinations : List CriticalAlert
deriving DecidableEq, Repr

/-- `_additional_clinical_rules`: diastolic staging when a diastolic
reading is present, plus the critical-combination check. -/
def additional_clinical_rules (vs : VitalSigns) : Assessments :=
  ⟨(vs .diastolic_bp).map stage_diastolic, check_critical_combinations vs⟩

/-- The English side of the `translations` table (the `language`
parameter only selects the string; the embedding fixes English). -/
def translate : String → String
  | "urgent" => "Urgent medical intervention required - call the doctor immediately"
  | "monitor_15" => "Monitor vital signs every 15 minutes"
  | "medium" => " Medical evaluation required - see a doctor soon"
  | "monitor_30" => " Monitor vital signs every 30 minutes"
  | "normal" => " Vital signs are within acceptable range"
  | "routine" => " Routine monitoring every 4-6 hours"
  | _ => ""

/-- The `critical_combo` translation template applied to a combination's
description (`" \x7bdesc\x7d - Immediate intervention required"`). -/
def translate_critical_combo (desc : String) : String :=
  " " ++ desc ++ " - Immediate intervention required"

/-- `_generate_recommendations`: two tier-driven base messages, then one
message per critical combination whose severity is `"critical"`, in
detection order. -/
def generate_recommendations (news_analysis : NewsAnalysis)
    (additional_assessments : Assessments) : List String :=
  (if news_analysis.risk_category.level = "high" then
    [translate "urgent", translate "monitor_15"]
   else if news_analysis.risk_category.level = "medium" then
    [translate "medium", translate "monitor_30"]
   else
    [translate "normal", translate "routine"])
  ++ (additional_assessments.critical_combinations.filter
        (fun combo => combo.severity = "critical")).map
      (fun combo => translate_critical_combo combo.description)

/-- The final alert record from `_determine_final_alert`. -/
structure FinalAlert where
  level : String
  color : String
  action : String
deriving DecidableEq, Repr

/-- `_determine_final_alert`: a critical-severity combination forces the
purple `critical` alert; otherwise the NEWS alert color drives the
level. -/
def determine_final_alert (news_analysis : NewsAnalysis)
    (additional_assessments : Assessments) : FinalAlert :=
  let news_alert := news_analysis.risk_category.alert_level
  let has_critical := additional_assessments.critical_combinations.any
      (fun combo => combo.severity = "critical")
  if has_critical then ⟨"critical", "purple", "immediate_intervention"⟩
  else if news_alert = "red" then ⟨"red", "red", "urgent_response"⟩
  else if news_alert = "yellow" then ⟨"yellow", "yellow", "prompt_assessment"⟩
  else ⟨"green", "green", "routine_monitoring"⟩

/-- The result record of `comprehensive_vital_analysis` (the fields a
downstream consumer reads; `patient_id` and timestamps are plumbing). -/
structure VitalAnalysisResult where
  news_analysis : NewsAnalysis
  additional_assessments : Assessments
  recommendations : List String
  final_alert : FinalAlert
  requires_immediate_attention : Bool
  sensor_errors : List SensorError
  cleaned : VitalSigns

/-- `comprehensive_vital_analysis`: integrity check, cleaning, NEWS
scoring, clinical rules, recommendations and final alert. -/
def comprehensive_vital_analysis (vs : VitalSigns) : VitalAnalysisResult :=
  let errors := check_sensor_integrity vs
  let filtered_vitals := cleaned_vital_signs vs
  let news_analysis := calculate_news_score filtered_vitals
  let additional_assessments := additional_clinical_rules filtered_vitals
  let recommendations := generate_recommendations news_analysis additional_assessments
  let final_alert := determine_final_alert news_analysis additional_assessments
  ⟨news_analysis, additional_assessments, recommendations, final_alert,
   final_alert.level = "red" ∨ final_alert.level = "critical",
   errors, filtered_vitals⟩

/-- The ECG analysis record consumed by the fusion engine.  The record is
produced by `analyze_ecg_signal`, which wraps an external trained model
(out of scope); the fusion logic only reads these fields. -/
structure EcgAnalysis where
  class_id : ℕ
  class_name : String
  confidence : ℚ
  risk_level : String
deriving DecidableEq, Repr

/-- The `risk_map.get(ecg_risk, 2)` lookup of `_calculate_combined_risk`. -/
def risk_map_get (risk : String) : ℕ :=
  if risk = "low" then 1
  else if risk = "medium" then 2
  else if risk = "high" then 3
  else 2

/-- The combined assessment returned by `_calculate_combined_risk`. -/
structure CombinedAssessment where
  combined_risk_level : String
  alert_color : String
  risk_score : ℚ
  contributing_factors : List String
  requires_immediate_attention : Bool
deriving Repr

/-- `_calculate_combined_risk`: ECG contributes `risk_map * 0.4` when an
ECG analysis is present, vitals contribute `vital_risk_score * 0.6`
(NEWS total ≥ 7 → 3, ≥ 5 → 2, else 1) when a vitals analysis is
present; the summed score is thresholded at 2.5 and 1.5, with the
`unknown`/gray fallback when neither source is present. -/
def calculate_combined_risk (ecg_analysis : Option EcgAnalysis)
    (vital_signs_analysis : Option VitalAnalysisResult) : CombinedAssessment :=
  let ecg_scores : List ℚ :=
    match ecg_analysis with
    | some e => [(risk_map_get e.risk_level : ℚ) * 0.4]
    | none => []
  let ecg_factors : List String :=
    match ecg_analysis with
    | some e =>
      if e.risk_level = "medium" ∨ e.risk_level = "high" then
        ["ECG issue: " ++ e.class_name]
      else []
    | none => []
  let vital_scores : List ℚ :=
    match vital_signs_analysis with
    | some va =>
      let news_score := va.news_analysis.total_news_score
      let vital_risk_score : ℕ :=
        if news_score ≥ 7 then 3 else if news_score ≥ 5 then 2 else 1
      [(vital_risk_score : ℚ) * 0.6]
    | none => []
  let vital_factors : List String :=
    match vital_signs_analysis with
    | some va => va.additional_assessments.critical_combinations.map
        (fun combo => combo.description)
    | none => []
  let risk_scores := ecg_scores ++ vital_scores
  let risk_factors := ecg_factors ++ vital_factors
  let levelColor : String × String :=
    if risk_scores.length > 0 then
      let combined_score := risk_scores.sum
      if combined_score ≥ 2.5 then ("high", "red")
      else if combined_score ≥ 1.5 then ("medium", "yellow")
      else ("low", "green")
    else ("unknown", "gray")
  ⟨levelColor.1, levelColor.2,
   if risk_scores.length > 0 then risk_scores.sum else 0,
   risk_factors, levelColor.1 = "high"⟩

/-- The inputs of `comprehensive_patient_analysis`: an optional ECG
analysis (the output of the external classifier when an `ecg_signal` is
supplied) and an optional vital-sign mapping (`some` exactly when the
`vital_signs` key is present, even with an empty mapping). -/
structure AnalysisInputs where
  ecg_analysis : Option EcgAnalysis
  vital_signs : Option VitalSigns

/-- The result record of `comprehensive_patient_analysis`. -/
structure PatientResults where
  ecg_analysis : Option EcgAnalysis
  vital_signs_analysis : Option VitalAnalysisResult
  combined_assessment : CombinedAssessment
  unified_recommendations : List String

/-- `_generate_unified_recommendations`: ECG class-driven advice, then
the vitals recommendations, with the emergency message inserted first
when the combined result requires immediate attention. -/
def generate_unified_recommendations (ecg_analysis : Option EcgAnalysis)
    (vital_signs_analysis : Option VitalAnalysisResult)
    (combined : CombinedAssessment) : List String :=
  let recs :=
    (match ecg_analysis with
     | some e =>
       if e.class_id = 2 ∨ e.class_id = 4 then
         ["🚨 Dangerous heartbeat pattern detected - see a heart doctor immediately"]
       else if e.class_id = 1 then
         ["⚠️ Irregular heartbeat detected (upper heart area) - follow up with a doctor"]
       else if e.class_id = 3 then
         ["📋 Mixed heartbeat signals detected - medical check advised"]
       else []
     | none => [])
    ++ (match vital_signs_analysis with
        | some va => va.recommendations
        | none => [])
  if combined.requires_immediate_attention then
    "🆘 Emergency detected - go to hospital immediately" :: recs
  else recs

/-- `comprehensive_patient_analysis`: run the rule-based vitals analysis
when vitals were supplied, fuse with the ECG analysis, and aggregate
recommendations.  The function is total: every input yields a verdict. -/
def comprehensive_patient_analysis (inp : AnalysisInputs) : PatientResults :=
  let vital_signs_analysis := inp.vital_signs.map comprehensive_vital_analysis
  let combined := calculate_combined_risk inp.ecg_analysis vital_signs_analysis
  ⟨inp.ecg_analysis, vital_signs_analysis, combined,
   generate_unified_recommendations inp.ecg_analysis vital_signs_analysis combined⟩

/-! ## Helper definitions and lemmas -/

/-- The reading set with one vital removed. -/
def remove_vital (vs : VitalSigns) (v : Vital) : VitalSigns :=
  fun w => if w = v then none else vs w

/-- One vital's contribution to the NEWS total: its parameter score when
it is present and has a NEWS table, `0` otherwise. -/
def news_contribution (vs : VitalSigns) (v : Vital) : ℕ :=
  match newsEntry vs v with
  | some e => e.2.2
  | none => 0

theorem total_eq_sum_contrib (vs : VitalSigns) (l : List Vital) :
    ((l.filterMap (newsEntry vs)).map (fun s => s.2.2)).sum =
      (l.map (news_contribution vs)).sum := by
  induction l with
  | nil => rfl
  | cons a as ih =>
    cases h : newsEntry vs a <;>
      simp [List.filterMap_cons, h, news_contribution, ih]

theorem contrib_remove (vs : VitalSigns) (v w : Vital) :
    news_contribution (remove_vital vs v) w =
      if w = v then 0 else news_contribution vs w := by
  by_cases h : w = v <;> simp [news_contribution, newsEntry, remove_vital, h]

theorem findScore_isSome_of_mem {l : List NewsRange} {q : ℚ}
    (r : NewsRange) (hmem : r ∈ l) (hc : r.containsQ q = true) :
    (findScore l q).isSome = true := by
  induction l with
  | nil => simp at hmem
  | cons a as ih =>
    rw [findScore]
    by_cases ha : a.containsQ q = true
    · simp [ha]
    · rcases List.mem_cons.mp hmem with rfl | hmem2
      · exact absurd hc ha
      · simp only [ha, Bool.false_eq_true, if_false]
        exact ih hmem2

/-! ## Claims -/

/-- C1: for every non-negative integer total NEWS score `n`, the risk
tier is `low` iff `0 ≤ n ≤ 4`, `medium` iff `5 ≤ n ≤ 6`, and `high` iff
`n ≥ 7`; the three tiers are therefore non-overlapping and cover every
non-negative integer total. -/
theorem C1_risk_tier_boundaries (n : ℕ) :
    ((determine_risk_category n).level = "low" ↔ n ≤ 4) ∧
    ((determine_risk_category n).level = "medium" ↔ 5 ≤ n ∧ n ≤ 6) ∧
    ((determine_risk_category n).level = "high" ↔ 7 ≤ n) := by
  unfold determine_risk_category
  refine ⟨?_, ?_, ?_⟩ <;> split_ifs with h1 h2 h3 <;> simp <;> omega

/-- C2: with a vitals analysis whose NEWS total is 8 and an external
cardiac classification of tier `high`, the fusion engine computes the
vitals contribution `3 * 0.6` and the cardiac contribution `3 * 0.4`,
sums them to `risk_score = 3`, and returns `combined_risk_level = high`,
`alert_color = red` and `requires_immediate_attention = true`. -/
theorem C2_fusion_worked_example (e : EcgAnalysis) (va : VitalAnalysisResult)
    (he : e.risk_level = "high") (hv : va.news_analysis.total_news_score = 8) :
    (calculate_combined_risk (some e) (some va)).risk_score =
      (3 : ℚ) * 0.4 + 3 * 0.6 ∧
    (calculate_combined_risk (some e) (some va)).risk_score = 3 ∧
    (calculate_combined_risk (some e) (some va)).combined_risk_level = "high" ∧
    (calculate_combined_risk (some e) (some va)).alert_color = "red" ∧
    (calculate_combined_risk (some e) (some va)).requires_immediate_attention = true := by
  simp [calculate_combined_risk, risk_map_get, he, hv]
  norm_num

/-- The concrete vitals of the C2 witness: respiratory rate 28 (score 3),
SpO2 91 (score 3), pulse 115 (score 2), NEWS total 8. -/
def vs_news8 : VitalSigns := fun v =>
  match v with
  | .respiratory_rate => some 28
  | .spo2 => some 91
  | .pulse => some 115
  | _ => none

/-- A cardiac classification of tier `high` (ventricular arrhythmia). -/
def ecg_high : EcgAnalysis :=
  ⟨2, "Ventricular arrhythmia (dangerous irregular beats from ventricles)",
   0.9, "high"⟩

theorem C2_fusion_worked_example_witness :
    (calculate_combined_risk (some ecg_high)
      (some (comprehensive_vital_analysis vs_news8))).risk_score =
        (3 : ℚ) * 0.4 + 3 * 0.6 ∧
    (calculate_combined_risk (some ecg_high)
      (some (comprehensive_vital_analysis vs_news8))).risk_score = 3 ∧
    (calculate_combined_risk (some ecg_high)
      (some (comprehensive_vital_analysis vs_news8))).combined_risk_level = "high" ∧
    (calculate_combined_risk (some ecg_high)
      (some (comprehensive_vital_analysis vs_news8))).alert_color = "red" ∧
    (calculate_combined_risk (some ecg_high)
      (some (comprehensive_vital_analysis vs_news8))).requires_immediate_attention = true :=
  C2_fusion_worked_example ecg_high (comprehensive_vital_analysis vs_news8)
    rfl (by decide)

/-- The empty vital-sign mapping (the `vital_signs` key is present but
holds no readings). -/
def empty_vitals : VitalSigns := fun _ => none

/-- C3 counterexample: with an empty (but present) vitals mapping and no
cardiac classification, the verdict is `low`/`green` with
`risk_score = 0.6`, not `unknown`/`gray` with `risk_score = 0` — the
vitals branch still contributes `1 * 0.6` because a vitals analysis
record exists even when every reading is absent. -/
theorem C3_empty_vitals_counterexample :
    (comprehensive_patient_analysis
      ⟨none, some empty_vitals⟩).combined_assessment.combined_risk_level = "low" ∧
    (comprehensive_patient_analysis
      ⟨none, some empty_vitals⟩).combined_assessment.alert_color = "green" ∧
    (comprehensive_patient_analysis
      ⟨none, some empty_vitals⟩).combined_assessment.risk_score = 3 / 5 := by
  have h0 : (comprehensive_vital_analysis
      empty_vitals).news_analysis.total_news_score = 0 := rfl
  refine ⟨?_, ?_, ?_⟩ <;>
    simp [comprehensive_patient_analysis, calculate_combined_risk, h0] <;>
    norm_num

theorem combined_unknown_iff (e : Option EcgAnalysis)
    (v : Option VitalAnalysisResult) :
    ((calculate_combined_risk e v).combined_risk_level = "unknown" ∧
     (calculate_combined_risk e v).alert_color = "gray" ∧
     (calculate_combined_risk e v).risk_score = 0) ↔ (e = none ∧ v = none) := by
  cases e <;> cases v <;>
    simp only [calculate_combined_risk, List.append_nil, List.nil_append] <;>
    simp <;> split_ifs <;> simp

/-- C3 (amended): the `unknown`/`gray`/`risk_score = 0` verdict is
returned exactly when the input carries neither a vitals mapping nor a
cardiac classification; an empty or fully-excluded vitals mapping still
counts as a vitals source (contributing `1 * 0.6`, hence a `low`/`green`
verdict), and in every case the call returns a verdict rather than
failing (the analysis is a total function). -/
theorem C3_unknown_verdict_iff_no_sources (inp : AnalysisInputs) :
    ((comprehensive_patient_analysis inp).combined_assessment.combined_risk_level
        = "unknown" ∧
     (comprehensive_patient_analysis inp).combined_assessment.alert_color = "gray" ∧
     (comprehensive_patient_analysis inp).combined_assessment.risk_score = 0) ↔
      (inp.ecg_analysis = none ∧ inp.vital_signs = none) := by
  obtain ⟨e, v⟩ := inp
  have h := combined_unknown_iff e (v.map comprehensive_vital_analysis)
  simpa [comprehensive_patient_analysis, Option.map_eq_none'] using h

/-- C10: in every combined assessment, `requires_immediate_attention`
holds iff `combined_risk_level = "high"`, which in turn holds iff at
least one source is present and the summed `risk_score` is at least
2.5; in particular it is false for the `unknown`, `medium` and `low`
verdicts. -/
theorem C10_immediate_attention_iff_high (e : Option EcgAnalysis)
    (v : Option VitalAnalysisResult) :
    ((calculate_combined_risk e v).requires_immediate_attention = true ↔
      (calculate_combined_risk e v).combined_risk_level = "high") ∧
    ((calculate_combined_risk e v).combined_risk_level = "high" ↔
      (¬(e = none ∧ v = none) ∧ (calculate_combined_risk e v).risk_score ≥ 2.5)) := by
  cases e <;> cases v <;>
    simp only [calculate_combined_risk, List.append_nil, List.nil_append] <;>
    simp <;> split_ifs <;> simp_all

/-- C4: whenever a detected critical combination has severity
`"critical"`, the final alert is level `critical` / color purple /
action `immediate_intervention`, regardless of the NEWS tier (including
tier `low`); otherwise the final alert level is the color the NEWS tier
maps to: low → green, medium → yellow, high → red. -/
theorem C4_critical_combination_override (vs : VitalSigns) :
    (((comprehensive_vital_analysis vs).additional_assessments.critical_combinations.any
        (fun combo => combo.severity = "critical")) = true →
      (comprehensive_vital_analysis vs).final_alert =
        ⟨"critical", "purple", "immediate_intervention"⟩) ∧
    (((comprehensive_vital_analysis vs).additional_assessments.critical_combinations.any
        (fun combo => combo.severity = "critical")) = false →
      (((comprehensive_vital_analysis vs).news_analysis.risk_category.level = "low" ∧
        (comprehensive_vital_analysis vs).final_alert =
          ⟨"green", "green", "routine_monitoring"⟩) ∨
       ((comprehensive_vital_analysis vs).news_analysis.risk_category.level = "medium" ∧
        (comprehensive_vital_analysis vs).final_alert =
          ⟨"yellow", "yellow", "prompt_assessment"⟩) ∨
       ((comprehensive_vital_analysis vs).news_analysis.risk_category.level = "high" ∧
        (comprehensive_vital_analysis vs).final_alert =
          ⟨"red", "red", "urgent_response"⟩))) := by
  have hn : (comprehensive_vital_analysis vs).news_analysis =
      calculate_news_score (cleaned_vital_signs vs) := rfl
  have ha : (comprehensive_vital_analysis vs).additional_assessments =
      additional_clinical_rules (cleaned_vital_signs vs) := rfl
  have hf : (comprehensive_vital_analysis vs).final_alert =
      determine_final_alert (calculate_news_score (cleaned_vital_signs vs))
        (additional_clinical_rules (cleaned_vital_signs vs)) := rfl
  rw [hn, ha, hf]
  set cvs := cleaned_vital_signs vs
  have hcat : (calculate_news_score cvs).risk_category =
      determine_risk_category (calculate_news_score cvs).total_news_score := rfl
  set n := (calculate_news_score cvs).total_news_score
  constructor
  · intro h
    simp [determine_final_alert, h]
  · intro h
    rcases (by omega : n ≤ 4 ∨ (5 ≤ n ∧ n ≤ 6) ∨ 7 ≤ n) with hr | hr | hr
    · exact Or.inl (by simp [determine_final_alert, h, hcat,
        determine_risk_category, hr])
    · have h4 : ¬(n ≤ 4) := by omega
      exact Or.inr (Or.inl (by simp [determine_final_alert, h, hcat,
        determine_risk_category, hr, h4]))
    · have h4 : ¬(n ≤ 4) := by omega
      have h56 : ¬(5 ≤ n ∧ n ≤ 6) := by omega
      exact Or.inr (Or.inr (by simp [determine_final_alert, h, hcat,
        determine_risk_category, hr, h4, h56]))

/-- The vitals of the C4 witness: SpO2 85 with respiratory rate 30 fires
the respiratory-distress combination while the NEWS total stays 6 in
tier `medium`, yet the final alert is `critical`/purple. -/
def vs_distress : VitalSigns := fun v =>
  match v with
  | .spo2 => some 85
  | .respiratory_rate => some 30
  | _ => none

theorem C4_critical_combination_override_witness :
    (comprehensive_vital_analysis vs_distress).final_alert =
      ⟨"critical", "purple", "immediate_intervention"⟩ :=
  (C4_critical_combination_override vs_distress).1 (by decide)

theorem mem_check_critical_combinations (vs : VitalSigns) (c : CriticalAlert) :
    c ∈ check_critical_combinations vs ↔
      (((vs .spo2).getD 100 < 92 ∧ (vs .respiratory_rate).getD 15 > 22) ∧
        c = respiratory_distress_alert) ∨
      (((vs .systolic_bp).getD 120 < 90 ∧ (vs .pulse).getD 70 > 100) ∧
        c = potential_shock_alert) ∨
      (((vs .temperature).getD 37 > 38.3 ∧ (vs .pulse).getD 70 > 110) ∧
        c = potential_sepsis_alert) := by
  unfold check_critical_combinations
  by_cases h1 : (vs .spo2).getD 100 < 92 ∧ (vs .respiratory_rate).getD 15 > 22 <;>
    by_cases h2 : (vs .systolic_bp).getD 120 < 90 ∧ (vs .pulse).getD 70 > 100 <;>
      by_cases h3 : (vs .temperature).getD 37 > 38.3 ∧ (vs .pulse).getD 70 > 110 <;>
        simp [h1, h2, h3]

/-- The vitals of the C5 failing input: systolic 120 and diastolic 95
(both plausible, so the pair survives cleaning). -/
def vs_dia95 : VitalSigns := fun v =>
  match v with
  | .systolic_bp => some 120
  | .diastolic_bp => some 95
  | _ => none

/-- C5 (evaluation at the failing input): the code classifies a
diastolic reading of 95 as status `"normal"` with severity `"low"`,
both in the staging function and through the full analysis pipeline —
whereas the claim (and the code's own `clinical_thresholds` entry
`normal_max = 89`) places 90–99 in stage-1 hypertension.  The staging
only compares against `stage1_hypertension = 99` and
`stage2_hypertension = 109`, so `normal` covers 60–99 and
`moderate_hypertension` covers 100–109. -/
theorem C5_diastolic_staging_divergence :
    stage_diastolic 95 = ⟨"normal", "low", 95⟩ ∧
    (comprehensive_vital_analysis vs_dia95).additional_assessments.diastolic_bp =
      some ⟨"normal", "low", 95⟩ ∧
    stage_diastolic 105 = ⟨"moderate_hypertension", "medium", 105⟩ := by
  refine ⟨by decide, by decide, by decide⟩

/-- The vitals of the C6 counterexample: temperature 39 with pulse 115
fires `potential_sepsis` (severity `"high"`), the NEWS total is 3
(tier `low`). -/
def vs_sepsis : VitalSigns := fun v =>
  match v with
  | .temperature => some 39
  | .pulse => some 115
  | _ => none

/-- C6 counterexample: a detected `potential_sepsis` combination
contributes no appended recommendation — the output is exactly the two
tier-`low` base messages, although one combination was detected.  Only
combinations of severity `"critical"` are appended, and
`potential_sepsis` has severity `"high"`. -/
theorem C6_sepsis_without_message_counterexample :
    (comprehensive_vital_analysis
      vs_sepsis).additional_assessments.critical_combinations =
        [potential_sepsis_alert] ∧
    (comprehensive_vital_analysis vs_sepsis).recommendations =
      [translate "normal", translate "routine"] := by
  refine ⟨by with_unfolding_all decide, by with_unfolding_all decide⟩

/-- C6 (amended): the generator emits the tier-specific base messages
(high → urgent + monitor-every-15-minutes; medium → evaluate-soon +
monitor-every-30-minutes; else → normal + routine interval) and then
appends exactly one templated message per detected combination **of
severity `"critical"`**, in detection order; a detected
`potential_sepsis` combination (severity `"high"`) contributes no
message. -/
theorem C6_recommendation_structure (vs : VitalSigns) :
    ((comprehensive_vital_analysis vs).recommendations =
      (if (comprehensive_vital_analysis vs).news_analysis.risk_category.level
          = "high" then
        [translate "urgent", translate "monitor_15"]
       else if (comprehensive_vital_analysis vs).news_analysis.risk_category.level
          = "medium" then
        [translate "medium", translate "monitor_30"]
       else
        [translate "normal", translate "routine"])
      ++ (((comprehensive_vital_analysis
              vs).additional_assessments.critical_combinations.filter
            (fun combo => combo.severity = "critical")).map
          (fun combo => translate_critical_combo combo.description))) ∧
    (potential_sepsis_alert ∈
        (comprehensive_vital_analysis
          vs).additional_assessments.critical_combinations →
      translate_critical_combo potential_sepsis_alert.description ∉
        (comprehensive_vital_analysis vs).recommendations) := by
  refine ⟨rfl, ?_⟩
  intro _ hmem
  have hrec : (comprehensive_vital_analysis vs).recommendations =
      generate_recommendations (calculate_news_score (cleaned_vital_signs vs))
        (additional_clinical_rules (cleaned_vital_signs vs)) := rfl
  rw [hrec] at hmem
  unfold generate_recommendations at hmem
  rcases List.mem_append.mp hmem with hbase | happ
  · split_ifs at hbase <;> simp [translate, translate_critical_combo,
      potential_sepsis_alert] at hbase
  · rcases List.mem_map.mp happ with ⟨combo, hcombo, heq⟩
    have hsev := (List.mem_filter.mp hcombo).2
    have hcc := (List.mem_filter.mp hcombo).1
    have := (mem_check_critical_combinations _ combo).mp hcc
    rcases this with ⟨_, rfl⟩ | ⟨_, rfl⟩ | ⟨_, rfl⟩ <;>
      simp [respiratory_distress_alert, potential_shock_alert,
        potential_sepsis_alert, translate_critical_combo] at heq hsev

theorem C6_recommendation_structure_witness :
    translate_critical_combo potential_sepsis_alert.description ∉
      (comprehensive_vital_analysis vs_sepsis).recommendations :=
  (C6_recommendation_structure vs_sepsis).2 (by with_unfolding_all decide)

/-- C8: whenever one of the two vitals participating in a
critical-combination rule is absent from the cleaned reading set, that
rule does not fire: the `dict.get` fallback values (spo2 100,
respiratory_rate 15, systolic_bp 120, pulse 70, temperature 37) never
satisfy the rule's predicate, so the conjunction fails and the rule is
suppressed rather than default-triggered. -/
theorem C8_missing_operand_suppresses_rule (vs : VitalSigns) :
    ((vs .spo2 = none ∨ vs .respiratory_rate = none) →
      (check_critical_combinations vs).all
        (fun c => c.type ≠ "respiratory_distress") = true) ∧
    ((vs .systolic_bp = none ∨ vs .pulse = none) →
      (check_critical_combinations vs).all
        (fun c => c.type ≠ "potential_shock") = true) ∧
    ((vs .temperature = none ∨ vs .pulse = none) →
      (check_critical_combinations vs).all
        (fun c => c.type ≠ "potential_sepsis") = true) := by
  refine ⟨?_, ?_, ?_⟩ <;>
    · intro h
      rw [List.all_eq_true]
      intro c hc
      rw [mem_check_critical_combinations] at hc
      rcases hc with ⟨⟨h1, h2⟩, rfl⟩ | ⟨⟨h1, h2⟩, rfl⟩ | ⟨⟨h1, h2⟩, rfl⟩ <;>
        rcases h with h | h <;>
          simp_all [respiratory_distress_alert, potential_shock_alert,
            potential_sepsis_alert] <;>
        norm_num at h1 h2 ⊢

/-- The vitals of the C8 witness: SpO2, systolic BP and temperature are
all absent while the present partners take rule-triggering values
(respiratory rate 30, pulse 120); no rule fires. -/
def vs_missing_operands : VitalSigns := fun v =>
  match v with
  | .respiratory_rate => some 30
  | .pulse => some 120
  | _ => none

theorem C8_missing_operand_suppresses_rule_witness :
    (check_critical_combinations vs_missing_operands).all
      (fun c => c.type ≠ "respiratory_distress") = true ∧
    (check_critical_combinations vs_missing_operands).all
      (fun c => c.type ≠ "potential_shock") = true ∧
    (check_critical_combinations vs_missing_operands).all
      (fun c => c.type ≠ "potential_sepsis") = true :=
  ⟨(C8_missing_operand_suppresses_rule vs_missing_operands).1 (Or.inl rfl),
   (C8_missing_operand_suppresses_rule vs_missing_operands).2.1 (Or.inl rfl),
   (C8_missing_operand_suppresses_rule vs_missing_operands).2.2 (Or.inl rfl)⟩

theorem get_news_parameter_score_eq_getD (ranges : List NewsRange) (q : ℚ) :
    get_news_parameter_score ranges q = (findScore ranges q).getD 0 := by
  cases h : findScore ranges q <;> simp [get_news_parameter_score, h]

theorem rr_integer_coverage (n : ℤ) :
    ∃ r ∈ (news_thresholds Vital.respiratory_rate).getD [],
      r.containsQ (n : ℚ) = true := by
  rcases (by omega :
      n ≤ 8 ∨ (9 ≤ n ∧ n ≤ 11) ∨ (12 ≤ n ∧ n ≤ 20) ∨ (21 ≤ n ∧ n ≤ 24) ∨ 25 ≤ n)
    with h | h | h | h | h
  · exact ⟨⟨.ninf, .fin 8, 3⟩, by simp [news_thresholds], by
      simp [NewsRange.containsQ, XVal.leq, XVal.geq]; exact_mod_cast h⟩
  · exact ⟨⟨.fin 9, .fin 11, 1⟩, by simp [news_thresholds], by
      simp [NewsRange.containsQ, XVal.leq, XVal.geq]
      exact ⟨by exact_mod_cast h.1, by exact_mod_cast h.2⟩⟩
  · exact ⟨⟨.fin 12, .fin 20, 0⟩, by simp [news_thresholds], by
      simp [NewsRange.containsQ, XVal.leq, XVal.geq]
      exact ⟨by exact_mod_cast h.1, by exact_mod_cast h.2⟩⟩
  · exact ⟨⟨.fin 21, .fin 24, 2⟩, by simp [news_thresholds], by
      simp [NewsRange.containsQ, XVal.leq, XVal.geq]
      exact ⟨by exact_mod_cast h.1, by exact_mod_cast h.2⟩⟩
  · exact ⟨⟨.fin 25, .pinf, 3⟩, by simp [news_thresholds], by
      simp [NewsRange.containsQ, XVal.leq, XVal.geq]; exact_mod_cast h⟩

theorem spo2_integer_coverage (n : ℤ) :
    ∃ r ∈ (news_thresholds Vital.spo2).getD [], r.containsQ (n : ℚ) = true := by
  rcases (by omega : n ≤ 91 ∨ (92 ≤ n ∧ n ≤ 93) ∨ (94 ≤ n ∧ n ≤ 95) ∨ 96 ≤ n)
    with h | h | h | h
  · exact ⟨⟨.ninf, .fin 91, 3⟩, by simp [news_thresholds], by
      simp [NewsRange.containsQ, XVal.leq, XVal.geq]; exact_mod_cast h⟩
  · exact ⟨⟨.fin 92, .fin 93, 2⟩, by simp [news_thresholds], by
      simp [NewsRange.containsQ, XVal.leq, XVal.geq]
      exact ⟨by exact_mod_cast h.1, by exact_mod_cast h.2⟩⟩
  · exact ⟨⟨.fin 94, .fin 95, 1⟩, by simp [news_thresholds], by
      simp [NewsRange.containsQ, XVal.leq, XVal.geq]
      exact ⟨by exact_mod_cast h.1, by exact_mod_cast h.2⟩⟩
  · exact ⟨⟨.fin 96, .pinf, 0⟩, by simp [news_thresholds], by
      simp [NewsRange.containsQ, XVal.leq, XVal.geq]; exact_mod_cast h⟩

theorem sbp_integer_coverage (n : ℤ) :
    ∃ r ∈ (news_thresholds Vital.systolic_bp).getD [],
      r.containsQ (n : ℚ) = true := by
  rcases (by omega : n ≤ 90 ∨ (91 ≤ n ∧ n ≤ 100) ∨ (101 ≤ n ∧ n ≤ 110) ∨
      (111 ≤ n ∧ n ≤ 219) ∨ 220 ≤ n) with h | h | h | h | h
  · exact ⟨⟨.ninf, .fin 90, 3⟩, by simp [news_thresholds], by
      simp [NewsRange.containsQ, XVal.leq, XVal.geq]; exact_mod_cast h⟩
  · exact ⟨⟨.fin 91, .fin 100, 2⟩, by simp [news_thresholds], by
      simp [NewsRange.containsQ, XVal.leq, XVal.geq]
      exact ⟨by exact_mod_cast h.1, by exact_mod_cast h.2⟩⟩
  · exact ⟨⟨.fin 101, .fin 110, 1⟩, by simp [news_thresholds], by
      simp [NewsRange.containsQ, XVal.leq, XVal.geq]
      exact ⟨by exact_mod_cast h.1, by exact_mod_cast h.2⟩⟩
  · exact ⟨⟨.fin 111, .fin 219, 0⟩, by simp [news_thresholds], by
      simp [NewsRange.containsQ, XVal.leq, XVal.geq]
      exact ⟨by exact_mod_cast h.1, by exact_mod_cast h.2⟩⟩
  · exact ⟨⟨.fin 220, .pinf, 3⟩, by simp [news_thresholds], by
      simp [NewsRange.containsQ, XVal.leq, XVal.geq]; exact_mod_cast h⟩

theorem pulse_integer_coverage (n : ℤ) :
    ∃ r ∈ (news_thresholds Vital.pulse).getD [], r.containsQ (n : ℚ) = true := by
  rcases (by omega : n ≤ 40 ∨ (41 ≤ n ∧ n ≤ 50) ∨ (51 ≤ n ∧ n ≤ 90) ∨
      (91 ≤ n ∧ n ≤ 110) ∨ (111 ≤ n ∧ n ≤ 130) ∨ 131 ≤ n)
    with h | h | h | h | h | h
  · exact ⟨⟨.ninf, .fin 40, 3⟩, by simp [news_thresholds], by
      simp [NewsRange.containsQ, XVal.leq, XVal.geq]; exact_mod_cast h⟩
  · exact ⟨⟨.fin 41, .fin 50, 1⟩, by simp [news_thresholds], by
      simp [NewsRange.containsQ, XVal.leq, XVal.geq]
      exact ⟨by exact_mod_cast h.1, by exact_mod_cast h.2⟩⟩
  · exact ⟨⟨.fin 51, .fin 90, 0⟩, by simp [news_thresholds], by
      simp [NewsRange.containsQ, XVal.leq, XVal.geq]
      exact ⟨by exact_mod_cast h.1, by exact_mod_cast h.2⟩⟩
  · exact ⟨⟨.fin 91, .fin 110, 1⟩, by simp [news_thresholds], by
      simp [NewsRange.containsQ, XVal.leq, XVal.geq]
      exact ⟨by exact_mod_cast h.1, by exact_mod_cast h.2⟩⟩
  · exact ⟨⟨.fin 111, .fin 130, 2⟩, by simp [news_thresholds], by
      simp [NewsRange.containsQ, XVal.leq, XVal.geq]
      exact ⟨by exact_mod_cast h.1, by exact_mod_cast h.2⟩⟩
  · exact ⟨⟨.fin 131, .pinf, 3⟩, by simp [news_thresholds], by
      simp [NewsRange.containsQ, XVal.leq, XVal.geq]; exact_mod_cast h⟩

theorem temperature_integer_coverage (n : ℤ) :
    ∃ r ∈ (news_thresholds Vital.temperature).getD [],
      r.containsQ (n : ℚ) = true := by
  rcases (by omega : n ≤ 35 ∨ n = 36 ∨ (37 ≤ n ∧ n ≤ 38) ∨ n = 39 ∨ 40 ≤ n)
    with h | rfl | h | rfl | h
  · exact ⟨⟨.ninf, .fin 35, 3⟩, by simp [news_thresholds], by
      simp [NewsRange.containsQ, XVal.leq, XVal.geq]; exact_mod_cast h⟩
  · exact ⟨⟨.fin 35.1, .fin 36, 1⟩, by simp [news_thresholds], by
      simp [NewsRange.containsQ, XVal.leq, XVal.geq]
      norm_num⟩
  · refine ⟨⟨.fin 36.1, .fin 38, 0⟩, by simp [news_thresholds], ?_⟩
    simp [NewsRange.containsQ, XVal.leq, XVal.geq]
    have h1 : (37 : ℚ) ≤ (n : ℚ) := by exact_mod_cast h.1
    have h2 : (n : ℚ) ≤ 38 := by exact_mod_cast h.2
    constructor <;> linarith
  · exact ⟨⟨.fin 38.1, .fin 39, 1⟩, by simp [news_thresholds], by
      simp [NewsRange.containsQ, XVal.leq, XVal.geq]
      norm_num⟩
  · refine ⟨⟨.fin 39.1, .pinf, 2⟩, by simp [news_thresholds], ?_⟩
    simp [NewsRange.containsQ, XVal.leq, XVal.geq]
    have h1 : (40 : ℚ) ≤ (n : ℚ) := by exact_mod_cast h
    linarith

/-- C7 counterexample: the range tables do not cover every numeric
value — a respiratory-rate reading of 8.5 falls in the gap between the
rows `(−∞, 8)` and `(9, 11)`, no row contains it, and the defensive
no-match default of score 0 is reached. -/
theorem C7_gap_counterexample :
    findScore ((news_thresholds Vital.respiratory_rate).getD []) (17 / 2) = none ∧
    get_news_parameter_score
      ((news_thresholds Vital.respiratory_rate).getD []) (17 / 2) = 0 := by
  refine ⟨by with_unfolding_all decide, by with_unfolding_all decide⟩

/-- C7 (amended): for every recognized vital with a NEWS range table and
every integer-valued reading, some row of the table contains the value,
so the defensive no-match default of score 0 is unreachable on integer
inputs, and the assigned score is that of the first containing row; for
non-integer readings lying in a gap between adjacent rows (such as
respiratory rate 8.5) the no-match default is reachable. -/
theorem C7_integer_coverage (v : Vital) (ranges : List NewsRange)
    (h : news_thresholds v = some ranges) (n : ℤ) :
    (findScore ranges (n : ℚ)).isSome = true ∧
    get_news_parameter_score ranges (n : ℚ) = (findScore ranges (n : ℚ)).getD 0 := by
  refine ⟨?_, get_news_parameter_score_eq_getD ranges (n : ℚ)⟩
  have hget : (news_thresholds v).getD [] = ranges := by rw [h]; rfl
  obtain ⟨r, hmem, hc⟩ : ∃ r ∈ ranges, r.containsQ (n : ℚ) = true := by
    rw [← hget]
    cases v
    · exact rr_integer_coverage n
    · exact spo2_integer_coverage n
    · exact sbp_integer_coverage n
    · exact absurd h (by simp [news_thresholds])
    · exact pulse_integer_coverage n
    · exact temperature_integer_coverage n
  exact findScore_isSome_of_mem r hmem hc

theorem C7_integer_coverage_witness :
    (findScore ((news_thresholds Vital.respiratory_rate).getD [])
      ((16 : ℤ) : ℚ)).isSome = true ∧
    get_news_parameter_score ((news_thresholds Vital.respiratory_rate).getD [])
        ((16 : ℤ) : ℚ) =
      (findScore ((news_thresholds Vital.respiratory_rate).getD [])
        ((16 : ℤ) : ℚ)).getD 0 :=
  C7_integer_coverage Vital.respiratory_rate
    ((news_thresholds Vital.respiratory_rate).getD []) rfl 16

/-- C9: the total NEWS score is additive over the vitals present — for
every reading set and vital, the total computed with that vital removed
equals the full total minus that vital's contribution (its parameter
score when present and scorable, 0 otherwise), and a removed vital
contributes nothing. -/
theorem C9_total_score_additive (vs : VitalSigns) (v : Vital) :
    (calculate_news_score (remove_vital vs v)).total_news_score =
      (calculate_news_score vs).total_news_score - news_contribution vs v ∧
    (calculate_news_score (remove_vital vs v)).total_news_score +
        news_contribution vs v =
      (calculate_news_score vs).total_news_score ∧
    news_contribution (remove_vital vs v) v = 0 := by
  have hsum : ∀ u : VitalSigns, (calculate_news_score u).total_news_score =
      (vitalsList.map (news_contribution u)).sum := fun u =>
    total_eq_sum_contrib u vitalsList
  have hadd : (calculate_news_score (remove_vital vs v)).total_news_score +
      news_contribution vs v = (calculate_news_score vs).total_news_score := by
    rw [hsum, hsum]
    cases v <;> simp [vitalsList, contrib_remove] <;> omega
  refine ⟨by omega, hadd, ?_⟩
  simp [news_contribution, newsEntry, remove_vital]

end MediGuard
